import Mathlib

/-!
Verification of the synheart-sensor-agent core pipeline.

The Rust source is shallowly embedded as follows:
* `chrono::DateTime<Utc>` timestamps and `chrono::Duration` values are modelled
  as `Int` millisecond counts (`num_milliseconds` is the unit the source
  compares in); `Utc::now()` calls become explicit time parameters.
* `f64` values are modelled as real numbers (`ℝ`).
* `Vec<T>` becomes `List T` with `push` as append at the tail.
* Fallible or stateful operations become explicit state-passing functions.
-/

namespace Synheart

open scoped Classical

/-! ## src/collector/types.rs : the reduced event model -/

/-- Keyboard event classification (declared in `collector::types` per the spec's
data model: `classification: {TypingTap | NavigationKey}`) and consumed by
`core::features`. -/
inductive KeyboardEventType where
  | TypingTap
  | NavigationKey
deriving DecidableEq, Repr

/-- A keyboard event: timing, press state and classification only. -/
structure KeyboardEvent where
  timestamp : Int
  is_key_down : Bool
  event_type : KeyboardEventType
deriving DecidableEq, Repr

/-- Mouse event type classification. -/
inductive MouseEventType where
  | Move
  | LeftClick
  | RightClick
  | Scroll
deriving DecidableEq, Repr

/-- Scroll direction. -/
inductive ScrollDirection where
  | Up
  | Down
  | Left
  | Right
deriving DecidableEq, Repr

/-- Bucketed scroll magnitude. -/
inductive ScrollMagnitude where
  | Small
  | Medium
  | Large
deriving DecidableEq, Repr

/-- A mouse event: timing and magnitude information only. -/
structure MouseEvent where
  timestamp : Int
  event_type : MouseEventType
  delta_magnitude : Option ℝ
  scroll_direction : Option ScrollDirection
  scroll_magnitude : Option ScrollMagnitude

/-- `MouseEvent::movement`: magnitude is the Euclidean norm of the delta.
The `Utc::now()` timestamp is passed explicitly. -/
noncomputable def MouseEvent.movement (now : Int) (delta_x delta_y : ℝ) : MouseEvent :=
  { timestamp := now
    event_type := MouseEventType.Move
    delta_magnitude := some (Real.sqrt (delta_x * delta_x + delta_y * delta_y))
    scroll_direction := none
    scroll_magnitude := none }

/-- `MouseEvent::click`. -/
def MouseEvent.click (now : Int) (is_left : Bool) : MouseEvent :=
  { timestamp := now
    event_type := if is_left then MouseEventType.LeftClick else MouseEventType.RightClick
    delta_magnitude := none
    scroll_direction := none
    scroll_magnitude := none }

/-- `MouseEvent::scroll`: direction from the dominant axis, magnitude bucketed
from `(delta_x.abs() + delta_y.abs()) as i32` (an `f64`-to-`i32` cast, which
truncates toward zero and saturates at the `i32` bounds; the total is
nonnegative, so truncation toward zero is the floor). -/
noncomputable def MouseEvent.scroll (now : Int) (delta_x delta_y : ℝ) : MouseEvent :=
  let direction :=
    if |delta_y| > |delta_x| then
      (if delta_y > 0 then ScrollDirection.Down else ScrollDirection.Up)
    else if delta_x > 0 then ScrollDirection.Right
    else ScrollDirection.Left
  let total : Int := max (min ⌊|delta_x| + |delta_y|⌋ 2147483647) (-2147483648)
  let magnitude :=
    if total < 3 then ScrollMagnitude.Small
    else if total ≤ 10 then ScrollMagnitude.Medium
    else ScrollMagnitude.Large
  { timestamp := now
    event_type := MouseEventType.Scroll
    delta_magnitude := none
    scroll_direction := some direction
    scroll_magnitude := some magnitude }

/-- Unified event type for the collector. -/
inductive SensorEvent where
  | keyboard (e : KeyboardEvent)
  | mouse (e : MouseEvent)

/-- `SensorEvent::timestamp`. -/
def SensorEvent.timestamp : SensorEvent → Int
  | .keyboard e => e.timestamp
  | .mouse e => e.timestamp

/-! ## src/core/windowing.rs : the window manager -/

/-- A time window containing collected events.  `end` is a Lean keyword, so the
field is named `end_`. -/
structure EventWindow where
  start : Int
  end_ : Int
  keyboard_events : List KeyboardEvent
  mouse_events : List MouseEvent
  is_session_start : Bool

/-- `EventWindow::new`: an empty window starting at the given time. -/
def EventWindow.new (start : Int) (duration : Int) : EventWindow :=
  { start := start
    end_ := start + duration
    keyboard_events := []
    mouse_events := []
    is_session_start := false }

/-- `EventWindow::contains`. -/
def EventWindow.contains (w : EventWindow) (timestamp : Int) : Prop :=
  w.start ≤ timestamp ∧ timestamp < w.end_

/-- `EventWindow::add_event`. -/
def EventWindow.add_event (w : EventWindow) (event : SensorEvent) : EventWindow :=
  match event with
  | .keyboard e => { w with keyboard_events := w.keyboard_events ++ [e] }
  | .mouse e => { w with mouse_events := w.mouse_events ++ [e] }

/-- `EventWindow::is_empty`. -/
def EventWindow.is_empty (w : EventWindow) : Bool :=
  w.keyboard_events.isEmpty && w.mouse_events.isEmpty

/-- `EventWindow::event_count`. -/
def EventWindow.event_count (w : EventWindow) : Nat :=
  w.keyboard_events.length + w.mouse_events.length

/-- `EventWindow::duration_secs`: milliseconds over 1000, as a real. -/
noncomputable def EventWindow.duration_secs (w : EventWindow) : ℝ :=
  ((w.end_ - w.start : Int) : ℝ) / 1000

/-- All event timestamps present in a window (specification helper used to
state the containment invariant). -/
def EventWindow.timestamps (w : EventWindow) : List Int :=
  w.keyboard_events.map KeyboardEvent.timestamp ++ w.mouse_events.map MouseEvent.timestamp

/-- The window-manager state: configuration, the single mutable current-window
slot, the FIFO of completed windows, and the last observed event time. -/
structure WindowManager where
  window_duration : Int
  session_gap_threshold : Int
  current_window : Option EventWindow
  completed_windows : List EventWindow
  last_event_time : Option Int

/-- `WindowManager::new`: durations are given in seconds and stored as
millisecond counts. -/
def WindowManager.new (window_duration_secs session_gap_threshold_secs : Nat) : WindowManager :=
  { window_duration := 1000 * (window_duration_secs : Int)
    session_gap_threshold := 1000 * (session_gap_threshold_secs : Int)
    current_window := none
    completed_windows := []
    last_event_time := none }

/-- `WindowManager::complete_current_window`: move the current window (if any)
to the completed queue, discarding it when empty. -/
def WindowManager.complete_current_window (m : WindowManager) : WindowManager :=
  match m.current_window with
  | some w =>
      { m with
        current_window := none
        completed_windows :=
          if w.is_empty then m.completed_windows else m.completed_windows ++ [w] }
  | none => m

/-- Open a fresh window anchored at `event_time`, tagged with the
session-start flag (source lines 114-118 and 126-129 share this shape). -/
def WindowManager.startNewWindow (m : WindowManager) (event_time : Int)
    (is_new_session : Bool) : WindowManager :=
  let w := { EventWindow.new event_time m.window_duration with
              is_session_start := is_new_session }
  { m with current_window := some w }

/-- Step 2 of `process_event`: on a session boundary, complete the current
window. -/
def WindowManager.sessionCheck (m : WindowManager) (is_new_session : Bool) : WindowManager :=
  if is_new_session && m.current_window.isSome then m.complete_current_window else m

/-- Step 3 of `process_event`: ensure there is a current window. -/
def WindowManager.ensureWindow (m : WindowManager) (event_time : Int)
    (is_new_session : Bool) : WindowManager :=
  if m.current_window.isNone then m.startNewWindow event_time is_new_session else m

/-- Step 4 of `process_event`: if the event falls at or past the current
window's end, complete it and open a new window anchored at the event. -/
def WindowManager.rollIfExpired (m : WindowManager) (event_time : Int)
    (is_new_session : Bool) : WindowManager :=
  match m.current_window with
  | some w =>
      if event_time ≥ w.end_ then
        (m.complete_current_window).startNewWindow event_time is_new_session
      else m
  | none => m

/-- Step 5 of `process_event`: append the event to the current window. -/
def WindowManager.addToCurrent (m : WindowManager) (event : SensorEvent) : WindowManager :=
  match m.current_window with
  | some w => { m with current_window := some (w.add_event event) }
  | none => m

/-- Step 1 of `process_event`: a session boundary is a gap above the
threshold, or the very first event. -/
def WindowManager.isNewSession (m : WindowManager) (event_time : Int) : Bool :=
  match m.last_event_time with
  | some last_time => decide (event_time - last_time > m.session_gap_threshold)
  | none => true

/-- `WindowManager::process_event`, composed exactly as the source's numbered
steps: session-boundary detection, window creation, expiry roll-over, event
insertion, and recording of the last event time. -/
def WindowManager.process_event (m : WindowManager) (event : SensorEvent) : WindowManager :=
  let event_time := event.timestamp
  let is_new_session := m.isNewSession event_time
  { (((m.sessionCheck is_new_session).ensureWindow event_time
        is_new_session).rollIfExpired event_time is_new_session).addToCurrent event with
    last_event_time := some event_time }

/-- `WindowManager::flush`. -/
def WindowManager.flush (m : WindowManager) : WindowManager :=
  m.complete_current_window

/-- `WindowManager::take_completed_windows`: returns the drained queue together
with the post-state. -/
def WindowManager.take_completed_windows (m : WindowManager) :
    List EventWindow × WindowManager :=
  (m.completed_windows, { m with completed_windows := [] })

/-- `WindowManager::has_completed_windows`. -/
def WindowManager.has_completed_windows (m : WindowManager) : Bool :=
  !m.completed_windows.isEmpty

/-- `WindowManager::check_window_expiry`, with `Utc::now()` passed explicitly. -/
def WindowManager.check_window_expiry (m : WindowManager) (now : Int) : WindowManager :=
  match m.current_window with
  | some w => if now ≥ w.end_ then m.complete_current_window else m
  | none => m

/-- One externally visible operation on a window manager. -/
inductive Op where
  | process (e : SensorEvent)
  | flush
  | expiry (now : Int)
  | take

/-- Run a sequence of operations against a manager (the `take` results
themselves are drained queues; the state evolution is what matters here). -/
def runOps (m : WindowManager) : List Op → WindowManager
  | [] => m
  | op :: rest =>
      runOps
        (match op with
          | .process e => m.process_event e
          | .flush => m.flush
          | .expiry now => (m.check_window_expiry now)
          | .take => (m.take_completed_windows).2)
        rest

/-! ## src/core/features.rs : the feature engine -/

/-- Keyboard-derived behavioral features. -/
structure KeyboardFeatures where
  typing_rate : ℝ
  pause_count : Nat
  mean_pause_ms : ℝ
  latency_variability : ℝ
  hold_time_mean : ℝ
  burst_index : ℝ
  session_continuity : ℝ
  typing_tap_count : Nat
  typing_cadence_stability : ℝ
  typing_gap_ratio : ℝ
  typing_interaction_intensity : ℝ
  keyboard_scroll_rate : ℝ
  navigation_key_count : Nat

/-- `KeyboardFeatures::default()`: all fields zero. -/
def KeyboardFeatures.default : KeyboardFeatures :=
  ⟨0, 0, 0, 0, 0, 0, 0, 0, 0, 0, 0, 0, 0⟩

/-- Mouse-derived behavioral features. -/
structure MouseFeatures where
  mouse_activity_rate : ℝ
  mean_velocity : ℝ
  velocity_variability : ℝ
  acceleration_spikes : Nat
  click_rate : ℝ
  scroll_rate : ℝ
  idle_ratio : ℝ
  micro_adjustment_ratio : ℝ

/-- `MouseFeatures::default()`: all fields zero. -/
def MouseFeatures.default : MouseFeatures :=
  ⟨0, 0, 0, 0, 0, 0, 0, 0⟩

/-- Derived behavioral signals combining keyboard and mouse data. -/
structure BehavioralSignals where
  interaction_rhythm : ℝ
  friction : ℝ
  motor_stability : ℝ
  focus_continuity_proxy : ℝ

/-- `BehavioralSignals::default()`: all fields zero. -/
def BehavioralSignals.default : BehavioralSignals :=
  ⟨0, 0, 0, 0⟩

/-- All computed features for a window. -/
structure WindowFeatures where
  keyboard : KeyboardFeatures
  mouse : MouseFeatures
  behavioral : BehavioralSignals

/-- `f64::clamp(lo, hi)` (for `lo ≤ hi`). -/
noncomputable def rclamp (x lo hi : ℝ) : ℝ :=
  min (max x lo) hi

/-- `std_dev`: population standard deviation, `0.0` for fewer than two
values. -/
noncomputable def std_dev (values : List ℝ) : ℝ :=
  if values.length < 2 then 0
  else
    let mean := values.sum / (values.length : ℝ)
    let variance := (values.map (fun v => (v - mean) ^ 2)).sum / (values.length : ℝ)
    Real.sqrt variance

/-- The loop body of `compute_hold_times`, with the `last_down` mutable slot
made an explicit accumulator. The hold duration in milliseconds is integral,
so the `[20.0, 2000.0]` plausibility filter is an integer range check. -/
def compute_hold_times_go : List KeyboardEvent → Option KeyboardEvent → List ℝ
  | [], _ => []
  | e :: rest, last_down =>
      if e.is_key_down then compute_hold_times_go rest (some e)
      else
        match last_down with
        | some down =>
            let hold_ms := e.timestamp - down.timestamp
            if 20 ≤ hold_ms ∧ hold_ms ≤ 2000 then
              ((hold_ms : Int) : ℝ) :: compute_hold_times_go rest none
            else compute_hold_times_go rest none
        | none => compute_hold_times_go rest none

/-- `compute_hold_times`: estimate hold times from the event sequence. -/
def compute_hold_times (events : List KeyboardEvent) : List ℝ :=
  compute_hold_times_go events none

/-- `windows(2)` over a list: the list of consecutive pairs. -/
def consecutivePairs (l : List α) : List (α × α) :=
  l.zip l.tail

/-- `compute_keyboard_features`. Thresholds: pause > 500 ms, burst < 100 ms,
active interval ≤ 2 × 500 ms; typing metrics use typing-tap key-down events
only, navigation keys feed `keyboard_scroll_rate` separately. -/
noncomputable def compute_keyboard_features (events : List KeyboardEvent)
    (window_duration : ℝ) : KeyboardFeatures :=
  if events = [] ∨ window_duration ≤ 0 then KeyboardFeatures.default
  else
    let typing_events := events.filter fun e => e.event_type = KeyboardEventType.TypingTap
    let navigation_events := events.filter fun e => e.event_type = KeyboardEventType.NavigationKey
    let navigation_key_presses := navigation_events.filter fun e => e.is_key_down
    let navigation_key_count := navigation_key_presses.length
    let keyboard_scroll_rate := (navigation_key_count : ℝ) / window_duration
    let typing_key_presses := typing_events.filter fun e => e.is_key_down
    let typing_tap_count := typing_key_presses.length
    let typing_rate := (typing_tap_count : ℝ) / window_duration
    let intervals : List Int :=
      (consecutivePairs typing_key_presses).map fun p => p.2.timestamp - p.1.timestamp
    let pauses := intervals.filter fun i => 500 < i
    let pause_count := pauses.length
    let mean_pause_ms : ℝ :=
      if pauses = [] then 0 else ((pauses.sum : Int) : ℝ) / (pauses.length : ℝ)
    let latency_variability := std_dev (intervals.map fun i => ((i : Int) : ℝ))
    let hold_times := compute_hold_times typing_events
    let hold_time_mean : ℝ :=
      if hold_times = [] then 0 else hold_times.sum / (hold_times.length : ℝ)
    let short_interval_count := (intervals.filter fun i => i < 100).length
    let burst_index : ℝ :=
      if intervals = [] then 0 else (short_interval_count : ℝ) / (intervals.length : ℝ)
    let active_intervals := intervals.filter fun i => i ≤ 500 * 2
    let active_time_ms := active_intervals.sum
    let session_continuity := (((active_time_ms : Int) : ℝ) / 1000) / window_duration
    let typing_cadence_stability := 1 / (1 + latency_variability / 100)
    let typing_gap_ratio : ℝ :=
      if intervals = [] then 0 else (pause_count : ℝ) / (intervals.length : ℝ)
    let normalized_speed := min (typing_rate / 10) 1
    let typing_interaction_intensity :=
      rclamp (normalized_speed * 0.4 + typing_cadence_stability * 0.3
        + (1 - typing_gap_ratio) * 0.3) 0 1
    { typing_rate := typing_rate
      pause_count := pause_count
      mean_pause_ms := mean_pause_ms
      latency_variability := latency_variability
      hold_time_mean := hold_time_mean
      burst_index := burst_index
      session_continuity := min session_continuity 1
      typing_tap_count := typing_tap_count
      typing_cadence_stability := typing_cadence_stability
      typing_gap_ratio := typing_gap_ratio
      typing_interaction_intensity := typing_interaction_intensity
      keyboard_scroll_rate := keyboard_scroll_rate
      navigation_key_count := navigation_key_count }

/-- `estimate_idle_ratio`: fewer than two move events means fully idle;
otherwise only the excess of each inter-move gap beyond 1000 ms counts as
idle time, and the ratio is capped at 1. -/
noncomputable def estimate_idle_ratio (move_events : List MouseEvent)
    (window_duration : ℝ) : ℝ :=
  if move_events.length < 2 then 1
  else
    let idle_time_ms : Int :=
      ((consecutivePairs move_events).map fun p =>
        let gap := p.2.timestamp - p.1.timestamp
        if gap > 1000 then gap - 1000 else 0).sum
    min ((((idle_time_ms : Int) : ℝ) / 1000) / window_duration) 1

/-- `compute_mouse_features`. Thresholds: micro-adjustment < 5 units,
acceleration spike > 50 units. -/
noncomputable def compute_mouse_features (events : List MouseEvent)
    (window_duration : ℝ) : MouseFeatures :=
  if events = [] ∨ window_duration ≤ 0 then MouseFeatures.default
  else
    let move_events := events.filter fun e => e.event_type = MouseEventType.Move
    let click_events := events.filter fun e =>
      e.event_type = MouseEventType.LeftClick ∨ e.event_type = MouseEventType.RightClick
    let scroll_events := events.filter fun e => e.event_type = MouseEventType.Scroll
    let mouse_activity_rate := (move_events.length : ℝ) / window_duration
    let velocities := move_events.filterMap fun e => e.delta_magnitude
    let mean_velocity : ℝ :=
      if velocities = [] then 0 else velocities.sum / (velocities.length : ℝ)
    let velocity_variability := std_dev velocities
    let acceleration_spikes :=
      ((consecutivePairs velocities).filter fun p => |p.2 - p.1| > 50).length
    let click_rate := (click_events.length : ℝ) / window_duration
    let scroll_rate := (scroll_events.length : ℝ) / window_duration
    let idle_ratio := estimate_idle_ratio move_events window_duration
    let micro_count := (velocities.filter fun v => v < 5).length
    let micro_adjustment_ratio : ℝ :=
      if velocities = [] then 0 else (micro_count : ℝ) / (velocities.length : ℝ)
    { mouse_activity_rate := mouse_activity_rate
      mean_velocity := mean_velocity
      velocity_variability := velocity_variability
      acceleration_spikes := acceleration_spikes
      click_rate := click_rate
      scroll_rate := scroll_rate
      idle_ratio := idle_ratio
      micro_adjustment_ratio := micro_adjustment_ratio }

/-- `compute_behavioral_signals`: derived signals, each clamped to `[0, 1]`. -/
noncomputable def compute_behavioral_signals (keyboard : KeyboardFeatures)
    (mouse : MouseFeatures) : BehavioralSignals :=
  let typing_rhythm := 1 / (1 + keyboard.latency_variability / 100)
  let mouse_rhythm := 1 / (1 + mouse.velocity_variability / 50)
  let interaction_rhythm := (typing_rhythm + mouse_rhythm) / 2
  let friction := (keyboard.pause_count : ℝ) * 0.1
    + (1 - keyboard.burst_index) * 0.3
    + mouse.micro_adjustment_ratio * 0.3
  let motor_stability := 1
    - min (keyboard.latency_variability / 200) 0.5
    - min (mouse.velocity_variability / 100) 0.5
  let focus_continuity_proxy :=
    keyboard.session_continuity * 0.5 + (1 - mouse.idle_ratio) * 0.5
  { interaction_rhythm := rclamp interaction_rhythm 0 1
    friction := rclamp friction 0 1
    motor_stability := rclamp motor_stability 0 1
    focus_continuity_proxy := rclamp focus_continuity_proxy 0 1 }

/-- `compute_features`: all features of a window. -/
noncomputable def compute_features (window : EventWindow) : WindowFeatures :=
  let keyboard := compute_keyboard_features window.keyboard_events window.duration_secs
  let mouse := compute_mouse_features window.mouse_events window.duration_secs
  let behavioral := compute_behavioral_signals keyboard mouse
  { keyboard := keyboard
    mouse := mouse
    behavioral := behavioral }

/-! ## src/core/hsi.rs : the HSI snapshot builder

RFC3339-formatted timestamps are modelled by their underlying millisecond
values; UUIDs by opaque strings supplied at construction; `serde_json`
serialization (an external crate) by an explicit serializer parameter of type
`HsiSnapshot → Except String String`. -/

/-- HSI axis reading direction. -/
inductive HsiDirection where
  | HigherIsMore
  | HigherIsLess
  | Bidirectional
deriving DecidableEq, Repr

/-- HSI source type. -/
inductive HsiSourceType where
  | Sensor
  | App
  | SelfReport
  | Observer
  | Derived
  | Other
deriving DecidableEq, Repr

/-- HSI producer metadata. -/
structure HsiProducer where
  name : String
  version : String
  instance_id : Option String

/-- HSI window definition (timestamps as millisecond values). -/
structure HsiWindow where
  start : Int
  end_ : Int
  label : Option String

/-- HSI axis reading. -/
structure HsiAxisReading where
  axis : String
  score : Option ℝ
  confidence : ℝ
  window_id : String
  direction : Option HsiDirection
  unit : Option String
  evidence_source_ids : Option (List String)
  notes : Option String

/-- HSI axes container (behavior domain only is populated by this producer). -/
structure HsiAxes where
  affect : Option (List HsiAxisReading)
  engagement : Option (List HsiAxisReading)
  behavior : Option (List HsiAxisReading)

/-- HSI source definition. -/
structure HsiSource where
  source_type : HsiSourceType
  quality : ℝ
  degraded : Bool
  notes : Option String

/-- HSI privacy declaration. -/
structure HsiPrivacy where
  contains_pii : Bool
  raw_biosignals_allowed : Bool
  derived_metrics_allowed : Bool
  notes : Option String

/-- `HsiPrivacy::default()`. -/
def HsiPrivacy.default : HsiPrivacy :=
  { contains_pii := false
    raw_biosignals_allowed := false
    derived_metrics_allowed := true
    notes := some "No key content or coordinates captured - timing and magnitude only" }

/-- A JSON metadata value as stored in the snapshot's `meta` bag. -/
inductive MetaVal where
  | num (x : ℝ)
  | nat (n : Nat)
  | bool (b : Bool)
  | str (s : String)

/-- HSI snapshot document. -/
structure HsiSnapshot where
  hsi_version : String
  observed_at_utc : Int
  computed_at_utc : Int
  producer : HsiProducer
  window_ids : List String
  windows : List (String × HsiWindow)
  source_ids : Option (List String)
  sources : Option (List (String × HsiSource))
  axes : Option HsiAxes
  privacy : HsiPrivacy
  meta : Option (List (String × MetaVal))

/-- Builder state: the per-instance UUID and optional session id. -/
structure HsiBuilder where
  instance_id : String
  session_id : Option String

/-- `HsiBuilder::build`: assemble a snapshot from a window and its features.
`Utc::now()` is the explicit `computed_at` millisecond parameter; the source
quality is a step function of the window's event count and the shared reading
confidence is `quality * 0.9`. -/
noncomputable def HsiBuilder.build (b : HsiBuilder) (computed_at : Int)
    (window : EventWindow) (features : WindowFeatures) : HsiSnapshot :=
  let window_id := "w_" ++ toString computed_at
  let source_id := "s_keyboard_mouse_" ++ b.instance_id
  let event_count := window.event_count
  let quality : ℝ :=
    if event_count = 0 then 0
    else if event_count < 10 then 0.5
    else if event_count < 50 then 0.75
    else 0.95
  let confidence := quality * 0.9
  let mkReading := fun (axis : String) (score : ℝ) (direction : HsiDirection)
      (unit : Option String) (notes : Option String) =>
    { axis := axis
      score := some score
      confidence := confidence
      window_id := window_id
      direction := some direction
      unit := unit
      evidence_source_ids := some [source_id]
      notes := notes : HsiAxisReading }
  let behavior_readings : List HsiAxisReading :=
    [ mkReading "typing_rate" (min (features.keyboard.typing_rate / 10) 1)
        HsiDirection.HigherIsMore (some "keys_per_sec_normalized") none,
      mkReading "typing_burstiness" features.keyboard.burst_index
        HsiDirection.Bidirectional none (some "Clustering of keystrokes"),
      mkReading "session_continuity" features.keyboard.session_continuity
        HsiDirection.HigherIsMore none none,
      mkReading "idle_ratio" features.mouse.idle_ratio
        HsiDirection.HigherIsLess (some "ratio") none,
      mkReading "focus_continuity" features.behavioral.focus_continuity_proxy
        HsiDirection.HigherIsMore none (some "Derived from typing and mouse patterns"),
      mkReading "interaction_rhythm" features.behavioral.interaction_rhythm
        HsiDirection.HigherIsMore none none,
      mkReading "motor_stability" features.behavioral.motor_stability
        HsiDirection.HigherIsMore none none,
      mkReading "friction" features.behavioral.friction
        HsiDirection.HigherIsMore none (some "Micro-adjustments and hesitation"),
      mkReading "typing_cadence_stability" features.keyboard.typing_cadence_stability
        HsiDirection.HigherIsMore none (some "Rhythmic consistency of typing"),
      mkReading "typing_gap_ratio" features.keyboard.typing_gap_ratio
        HsiDirection.HigherIsLess (some "ratio")
        (some "Proportion of inter-tap intervals classified as gaps"),
      mkReading "typing_interaction_intensity" features.keyboard.typing_interaction_intensity
        HsiDirection.HigherIsMore none
        (some "Composite of speed, cadence stability, and gap behavior"),
      mkReading "keyboard_scroll_rate" (min (features.keyboard.keyboard_scroll_rate / 5) 1)
        HsiDirection.HigherIsMore (some "nav_keys_per_sec_normalized")
        (some "Navigation keys (arrows, page up/down) - separate from mouse scroll") ]
  let axes : HsiAxes :=
    { affect := none, engagement := none, behavior := some behavior_readings }
  let session_meta : List (String × MetaVal) :=
    match b.session_id with
    | some sid => [("session_id", MetaVal.str sid)]
    | none => []
  let meta : List (String × MetaVal) :=
    [ ("keyboard_events", MetaVal.nat window.keyboard_events.length),
      ("mouse_events", MetaVal.nat window.mouse_events.length),
      ("duration_secs", MetaVal.num window.duration_secs),
      ("is_session_start", MetaVal.bool window.is_session_start) ]
    ++ session_meta
    ++ [ ("raw_typing_rate", MetaVal.num features.keyboard.typing_rate),
      ("raw_mean_velocity", MetaVal.num features.mouse.mean_velocity),
      ("raw_click_rate", MetaVal.num features.mouse.click_rate),
      ("typing_tap_count", MetaVal.nat features.keyboard.typing_tap_count),
      ("navigation_key_count", MetaVal.nat features.keyboard.navigation_key_count),
      ("keyboard_scroll_rate", MetaVal.num features.keyboard.keyboard_scroll_rate) ]
  { hsi_version := "1.0"
    observed_at_utc := window.end_
    computed_at_utc := computed_at
    producer :=
      { name := "synheart-sensor-agent"
        version := "0.1.0"
        instance_id := some b.instance_id }
    window_ids := [window_id]
    windows :=
      [ (window_id,
          { start := window.start
            end_ := window.end_
            label := if window.is_session_start then some "session_start" else none }) ]
    source_ids := some [source_id]
    sources :=
      some [ (source_id,
        { source_type := HsiSourceType.Sensor
          quality := quality
          degraded := decide (event_count < 10)
          notes := if event_count < 10 then some "Low event count in window" else none }) ]
    axes := some axes
    privacy := HsiPrivacy.default
    meta := some meta }

/-- `HsiBuilder::build_json`: build a snapshot and serialize it, substituting
the literal string `"\x7b\x7d"` (an empty JSON object) when the serializer
fails.  The serializer stands for `serde_json::to_string_pretty`. -/
noncomputable def HsiBuilder.build_json (b : HsiBuilder)
    (ser : HsiSnapshot → Except String String) (computed_at : Int)
    (window : EventWindow) (features : WindowFeatures) : String :=
  let snapshot := b.build computed_at window features
  match ser snapshot with
  | .ok s => s
  | .error _ => "\x7b\x7d"

/-! ## Window-manager lemmas -/

theorem complete_window_duration (m : WindowManager) :
    m.complete_current_window.window_duration = m.window_duration := by
  unfold WindowManager.complete_current_window
  cases m.current_window <;> rfl

theorem complete_session_gap (m : WindowManager) :
    m.complete_current_window.session_gap_threshold = m.session_gap_threshold := by
  unfold WindowManager.complete_current_window
  cases m.current_window <;> rfl

theorem complete_last_event_time (m : WindowManager) :
    m.complete_current_window.last_event_time = m.last_event_time := by
  unfold WindowManager.complete_current_window
  cases m.current_window <;> rfl

theorem complete_current_none (m : WindowManager) :
    m.complete_current_window.current_window = none := by
  unfold WindowManager.complete_current_window
  cases h : m.current_window <;> simp [h]

theorem complete_mem_completed (m : WindowManager) (w : EventWindow)
    (hw : w ∈ m.completed_windows) :
    w ∈ m.complete_current_window.completed_windows := by
  unfold WindowManager.complete_current_window
  cases h : m.current_window with
  | none => exact hw
  | some w' =>
      simp only []
      split
      · exact hw
      · exact List.mem_append_left _ hw

theorem startNewWindow_current (m : WindowManager) (t : Int) (b : Bool) :
    (m.startNewWindow t b).current_window =
      some { start := t, end_ := t + m.window_duration, keyboard_events := [],
             mouse_events := [], is_session_start := b } := rfl

theorem sessionCheck_cases (m : WindowManager) (b : Bool) :
    m.sessionCheck b = m.complete_current_window ∨ m.sessionCheck b = m := by
  unfold WindowManager.sessionCheck
  split
  · exact Or.inl rfl
  · exact Or.inr rfl

theorem add_event_start (w : EventWindow) (e : SensorEvent) :
    (w.add_event e).start = w.start := by
  cases e <;> rfl

theorem add_event_end (w : EventWindow) (e : SensorEvent) :
    (w.add_event e).end_ = w.end_ := by
  cases e <;> rfl

theorem add_event_is_session_start (w : EventWindow) (e : SensorEvent) :
    (w.add_event e).is_session_start = w.is_session_start := by
  cases e <;> rfl

theorem mem_timestamps_add_event (w : EventWindow) (e : SensorEvent) (s : Int) :
    s ∈ (w.add_event e).timestamps ↔ s ∈ w.timestamps ∨ s = e.timestamp := by
  cases e with
  | keyboard k =>
      simp only [EventWindow.add_event, EventWindow.timestamps, SensorEvent.timestamp,
        List.map_append, List.map_cons, List.map_nil, List.mem_append, List.mem_singleton]
      tauto
  | mouse mo =>
      simp only [EventWindow.add_event, EventWindow.timestamps, SensorEvent.timestamp,
        List.map_append, List.map_cons, List.map_nil, List.mem_append, List.mem_singleton]
      tauto

theorem ensureWindow_isSome (m : WindowManager) (t : Int) (b : Bool) :
    ((m.ensureWindow t b).current_window).isSome = true := by
  unfold WindowManager.ensureWindow
  split
  · simp [startNewWindow_current]
  · rename_i h
    simp only [Option.isNone_iff_eq_none] at h
    cases hc : m.current_window with
    | none => exact absurd hc h
    | some w => simp

theorem rollIfExpired_isSome (m : WindowManager) (t : Int) (b : Bool)
    (h : (m.current_window).isSome = true) :
    ((m.rollIfExpired t b).current_window).isSome = true := by
  unfold WindowManager.rollIfExpired
  cases hc : m.current_window with
  | none => rw [hc] at h; simp at h
  | some w =>
      simp only []
      split
      · simp [startNewWindow_current]
      · rw [hc]; rfl

theorem addToCurrent_isSome (m : WindowManager) (e : SensorEvent)
    (h : (m.current_window).isSome = true) :
    ((m.addToCurrent e).current_window).isSome = true := by
  unfold WindowManager.addToCurrent
  cases hc : m.current_window with
  | none => rw [hc] at h; simp at h
  | some w => simp

/-- After `process_event` the manager always has an open window and records
the event's timestamp (reusable lemma backing claim C10). -/
theorem process_event_shape (m : WindowManager) (e : SensorEvent) :
    (m.process_event e).last_event_time = some e.timestamp ∧
    ((m.process_event e).current_window).isSome = true := by
  refine ⟨rfl, ?_⟩
  unfold WindowManager.process_event
  exact addToCurrent_isSome _ _ (rollIfExpired_isSome _ _ _ (ensureWindow_isSome _ _ _))

/-! ## The window-containment invariant (claim C1) -/

/-- Every event timestamp of the window lies in `[start, end)`. -/
def windowInv (w : EventWindow) : Prop :=
  ∀ t ∈ w.timestamps, w.contains t

/-- All completed windows satisfy the containment invariant. -/
def completedInv (m : WindowManager) : Prop :=
  ∀ w ∈ m.completed_windows, windowInv w

/-- Full manager invariant: completed windows are contained, and an open
window satisfies containment and starts no later than the last observed
event. -/
def managerInv (m : WindowManager) : Prop :=
  completedInv m ∧
  ∀ w, m.current_window = some w →
    windowInv w ∧ ∃ t0, m.last_event_time = some t0 ∧ w.start ≤ t0

theorem completedInv_complete (m : WindowManager)
    (h1 : completedInv m)
    (h2 : ∀ w, m.current_window = some w → windowInv w) :
    completedInv m.complete_current_window := by
  intro w hw
  unfold WindowManager.complete_current_window at hw
  cases hc : m.current_window with
  | none => rw [hc] at hw; exact h1 w hw
  | some w' =>
      rw [hc] at hw
      simp only [] at hw
      split at hw
      · exact h1 w hw
      · rcases List.mem_append.mp hw with h | h
        · exact h1 w h
        · rw [List.mem_singleton.mp h]
          exact h2 w' hc

theorem managerInv_complete (m : WindowManager) (h : managerInv m) :
    managerInv m.complete_current_window := by
  refine ⟨completedInv_complete m h.1 (fun w hw => (h.2 w hw).1), ?_⟩
  intro w hw
  rw [complete_current_none m] at hw
  exact absurd hw (by simp)

theorem managerInv_flush (m : WindowManager) (h : managerInv m) :
    managerInv m.flush :=
  managerInv_complete m h

theorem managerInv_expiry (m : WindowManager) (now : Int) (h : managerInv m) :
    managerInv (m.check_window_expiry now) := by
  unfold WindowManager.check_window_expiry
  cases hc : m.current_window with
  | none => exact h
  | some w =>
      simp only []
      split
      · exact managerInv_complete m h
      · exact h

theorem managerInv_take (m : WindowManager) (h : managerInv m) :
    managerInv (m.take_completed_windows).2 := by
  refine ⟨?_, ?_⟩
  · intro w hw
    simp [WindowManager.take_completed_windows] at hw
  · intro w hw
    exact h.2 w hw

theorem flush_last_event_time (m : WindowManager) :
    m.flush.last_event_time = m.last_event_time :=
  complete_last_event_time m

theorem expiry_last_event_time (m : WindowManager) (now : Int) :
    (m.check_window_expiry now).last_event_time = m.last_event_time := by
  unfold WindowManager.check_window_expiry
  cases hc : m.current_window with
  | none => rfl
  | some w =>
      simp only []
      split
      · exact complete_last_event_time m
      · rfl

theorem flush_window_duration (m : WindowManager) :
    m.flush.window_duration = m.window_duration :=
  complete_window_duration m

theorem expiry_window_duration (m : WindowManager) (now : Int) :
    (m.check_window_expiry now).window_duration = m.window_duration := by
  unfold WindowManager.check_window_expiry
  cases hc : m.current_window with
  | none => rfl
  | some w =>
      simp only []
      split
      · exact complete_window_duration m
      · rfl

theorem sessionCheck_window_duration (m : WindowManager) (b : Bool) :
    (m.sessionCheck b).window_duration = m.window_duration := by
  rcases sessionCheck_cases m b with h | h <;> rw [h]
  exact complete_window_duration m

theorem process_event_window_duration (m : WindowManager) (e : SensorEvent) :
    (m.process_event e).window_duration = m.window_duration := by
  unfold WindowManager.process_event WindowManager.addToCurrent
    WindowManager.rollIfExpired WindowManager.ensureWindow WindowManager.startNewWindow
  simp only []
  repeat' split
  all_goals simp [complete_window_duration, sessionCheck_window_duration]

/-- The core step: `process_event` preserves the manager invariant whenever
the window duration is positive and the event does not move backwards in
time. -/
theorem managerInv_process_event (m : WindowManager) (e : SensorEvent)
    (hd : 0 < m.window_duration)
    (hmono : ∀ t0, m.last_event_time = some t0 → t0 ≤ e.timestamp)
    (h : managerInv m) :
    managerInv (m.process_event e) := by
  unfold WindowManager.process_event
  simp only []
  set t := e.timestamp with ht
  set b : Bool := m.isNewSession t with hb
  -- Phase 1: the session check preserves the invariant.
  have h1 : managerInv (m.sessionCheck b) := by
    rcases sessionCheck_cases m b with hs | hs <;> rw [hs]
    · exact managerInv_complete m h
    · exact h
  have h1' : ∀ w, (m.sessionCheck b).current_window = some w →
      windowInv w ∧ w.start ≤ t := by
    intro w hw
    rcases sessionCheck_cases m b with hs | hs <;> rw [hs] at hw
    · rw [complete_current_none m] at hw; cases hw
    · rcases h.2 w hw with ⟨hwin, t0, hlt, hle⟩
      exact ⟨hwin, le_trans hle (hmono t0 hlt)⟩
  have hd1 : 0 < (m.sessionCheck b).window_duration := by
    rw [sessionCheck_window_duration]; exact hd
  set m1 := m.sessionCheck b with hm1
  -- Phase 2: ensure a window exists.
  have h2c : completedInv (m1.ensureWindow t b) := by
    unfold WindowManager.ensureWindow WindowManager.startNewWindow
    split
    · exact h1.1
    · exact h1.1
  have h2 : ∀ w, (m1.ensureWindow t b).current_window = some w →
      windowInv w ∧ w.start ≤ t := by
    intro w hw
    unfold WindowManager.ensureWindow at hw
    split at hw
    · rw [startNewWindow_current] at hw
      cases hw
      exact ⟨fun s hs => by simp [EventWindow.timestamps] at hs, le_refl t⟩
    · exact h1' w hw
  have hd2 : 0 < (m1.ensureWindow t b).window_duration := by
    unfold WindowManager.ensureWindow WindowManager.startNewWindow
    split
    · exact hd1
    · exact hd1
  have h2s : ((m1.ensureWindow t b).current_window).isSome = true :=
    ensureWindow_isSome m1 t b
  set m2 := m1.ensureWindow t b with hm2
  -- Phase 3: roll over an expired window.
  have h3 : completedInv (m2.rollIfExpired t b) ∧
      ∀ w, (m2.rollIfExpired t b).current_window = some w →
        windowInv w ∧ w.start ≤ t ∧ t < w.end_ := by
    unfold WindowManager.rollIfExpired
    cases hc : m2.current_window with
    | none => rw [hc] at h2s; simp at h2s
    | some w =>
        simp only []
        split
        · rename_i hge
          constructor
          · unfold WindowManager.startNewWindow
            exact completedInv_complete m2 h2c
              (fun w' hw' => (h2 w' hw').1)
          · intro w' hw'
            rw [startNewWindow_current] at hw'
            cases hw'
            refine ⟨fun s hs => by simp [EventWindow.timestamps] at hs, le_refl t, ?_⟩
            simp only [complete_window_duration]
            have := hd2
            omega
        · rename_i hlt
          refine ⟨h2c, ?_⟩
          intro w' hw'
          rw [hc] at hw'
          cases hw'
          rcases h2 w hc with ⟨hwin, hle⟩
          exact ⟨hwin, hle, lt_of_not_ge hlt⟩
  set m3 := m2.rollIfExpired t b with hm3
  -- Phase 4: add the event, phase 5: record the time.
  rcases h3 with ⟨h3c, h3w⟩
  constructor
  · intro w hw
    unfold WindowManager.addToCurrent at hw
    cases hc : m3.current_window with
    | none => rw [hc] at hw; exact h3c w hw
    | some w' => rw [hc] at hw; exact h3c w hw
  · intro w hw
    unfold WindowManager.addToCurrent at hw
    cases hc : m3.current_window with
    | none =>
        rw [hc] at hw
        simp only [] at hw
        rcases h3w w hw with ⟨hwin, hle, hlt⟩
        exact ⟨hwin, t, rfl, hle⟩
    | some w' =>
        rw [hc] at hw
        simp only [] at hw
        cases hw
        rcases h3w w' hc with ⟨hwin, hle, hlt⟩
        refine ⟨?_, t, rfl, by rw [add_event_start]; exact hle⟩
        intro s hs
        rcases (mem_timestamps_add_event w' e s).mp hs with hmem | hts
        · rcases hwin s hmem with ⟨hl, hr⟩
          exact ⟨by rw [add_event_start]; exact hl, by rw [add_event_end]; exact hr⟩
        · rw [hts, ← ht]
          exact ⟨by rw [add_event_start]; exact hle, by rw [add_event_end]; exact hlt⟩

/-- The events fed to `process_event` never move backwards in time, relative
to a given last-observed timestamp (flush/expiry/take do not touch it). -/
def OpsMono : Option Int → List Op → Prop
  | _, [] => True
  | last, Op.process e :: rest =>
      (∀ t0, last = some t0 → t0 ≤ e.timestamp) ∧ OpsMono (some e.timestamp) rest
  | last, Op.flush :: rest => OpsMono last rest
  | last, Op.expiry _ :: rest => OpsMono last rest
  | last, Op.take :: rest => OpsMono last rest

theorem managerInv_runOps (ops : List Op) (m : WindowManager)
    (hd : 0 < m.window_duration) (h : managerInv m)
    (hmono : OpsMono m.last_event_time ops) :
    managerInv (runOps m ops) := by
  induction ops generalizing m with
  | nil => exact h
  | cons op rest ih =>
      cases op with
      | process e =>
          rcases hmono with ⟨hm, hrest⟩
          refine ih (m.process_event e) ?_ ?_ ?_
          · rw [process_event_window_duration]; exact hd
          · exact managerInv_process_event m e hd hm h
          · rw [(process_event_shape m e).1]; exact hrest
      | flush =>
          refine ih m.flush ?_ ?_ ?_
          · rw [flush_window_duration]; exact hd
          · exact managerInv_flush m h
          · rw [flush_last_event_time]; exact hmono
      | expiry now =>
          refine ih (m.check_window_expiry now) ?_ ?_ ?_
          · rw [expiry_window_duration]; exact hd
          · exact managerInv_expiry m now h
          · rw [expiry_last_event_time]; exact hmono
      | take =>
          refine ih (m.take_completed_windows).2 ?_ ?_ ?_
          · exact hd
          · exact managerInv_take m h
          · exact hmono

theorem managerInv_new (ws gs : Nat) : managerInv (WindowManager.new ws gs) := by
  constructor
  · intro w hw
    simp [WindowManager.new] at hw
  · intro w hw
    simp [WindowManager.new] at hw

/-! ## Claim theorems: windowing -/

/-- C1 (counterexample): the containment invariant fails as stated, in two
ways.  With a zero-second window duration, a surfaced window has
`start = end` yet holds an event at that instant, violating
`timestamp < end`; and with a positive duration, an out-of-order event
(timestamp earlier than the open window's anchor) is still appended,
violating `start <= timestamp`. -/
theorem window_event_containment_counterexample :
    (∃ w ∈ (runOps (WindowManager.new 0 300)
        [Op.process (SensorEvent.keyboard ⟨5, true, KeyboardEventType.TypingTap⟩),
         Op.flush]).take_completed_windows.1,
      ∃ t ∈ w.timestamps, ¬ w.contains t) ∧
    (∃ w ∈ (runOps (WindowManager.new 10 300)
        [Op.process (SensorEvent.keyboard ⟨5000, true, KeyboardEventType.TypingTap⟩),
         Op.process (SensorEvent.keyboard ⟨0, true, KeyboardEventType.TypingTap⟩),
         Op.flush]).take_completed_windows.1,
      ∃ t ∈ w.timestamps, ¬ w.contains t) := by
  constructor
  · have h : (runOps (WindowManager.new 0 300)
        [Op.process (SensorEvent.keyboard ⟨5, true, KeyboardEventType.TypingTap⟩),
         Op.flush]).take_completed_windows.1 =
        [{ start := 5, end_ := 5, keyboard_events := [⟨5, true, KeyboardEventType.TypingTap⟩],
           mouse_events := [], is_session_start := true }] := rfl
    rw [h]
    refine ⟨_, List.mem_singleton_self _, 5, ?_, ?_⟩
    · simp [EventWindow.timestamps]
    · simp [EventWindow.contains]
  · have h : (runOps (WindowManager.new 10 300)
        [Op.process (SensorEvent.keyboard ⟨5000, true, KeyboardEventType.TypingTap⟩),
         Op.process (SensorEvent.keyboard ⟨0, true, KeyboardEventType.TypingTap⟩),
         Op.flush]).take_completed_windows.1 =
        [{ start := 5000, end_ := 15000,
           keyboard_events := [⟨5000, true, KeyboardEventType.TypingTap⟩,
             ⟨0, true, KeyboardEventType.TypingTap⟩],
           mouse_events := [], is_session_start := true }] := rfl
    rw [h]
    refine ⟨_, List.mem_singleton_self _, 0, ?_, ?_⟩
    · simp [EventWindow.timestamps]
    · simp [EventWindow.contains]

/-- C1 (amended): provided the configured window duration is positive and
events are processed in non-decreasing timestamp order, every event of every
window surfaced by `take_completed_windows` after any operation sequence
satisfies `start <= timestamp < end`. -/
theorem window_event_containment (ws gs : Nat) (ops : List Op)
    (hw : 0 < ws) (hmono : OpsMono none ops) :
    ∀ w ∈ (runOps (WindowManager.new ws gs) ops).take_completed_windows.1,
      ∀ t ∈ w.timestamps, w.contains t := by
  intro w hwmem t ht
  have hinv : managerInv (runOps (WindowManager.new ws gs) ops) := by
    refine managerInv_runOps ops _ ?_ (managerInv_new ws gs) hmono
    simp only [WindowManager.new]
    omega
  exact hinv.1 w hwmem t ht

/-- C1 (witness): a concrete run through the amended theorem, instantiated at
the surfaced window and one of its event timestamps. -/
theorem window_event_containment_witness :
    EventWindow.contains
      { start := 0, end_ := 10000,
        keyboard_events := [⟨0, true, KeyboardEventType.TypingTap⟩,
          ⟨400, true, KeyboardEventType.TypingTap⟩],
        mouse_events := [], is_session_start := true } 400 := by
  refine window_event_containment 10 300
    [Op.process (SensorEvent.keyboard ⟨0, true, KeyboardEventType.TypingTap⟩),
     Op.process (SensorEvent.keyboard ⟨400, true, KeyboardEventType.TypingTap⟩),
     Op.flush] (by decide) ⟨?_, ?_, ?_⟩ _ ?_ 400 ?_
  · intro t0 h; cases h
  · intro t0 h; cases h; decide
  · trivial
  · exact List.mem_singleton_self _
  · show (400 : Int) ∈ [(0 : Int), 400]
    simp

/-! ## Claim theorems: non-empty windows (C8), flush idempotence (C9),
processing shape (C10), session boundaries (C4) -/

/-- All completed windows hold at least one event. -/
def completedNonempty (m : WindowManager) : Prop :=
  ∀ w ∈ m.completed_windows, w.is_empty = false

theorem completedNonempty_complete (m : WindowManager) (h : completedNonempty m) :
    completedNonempty m.complete_current_window := by
  intro w hw
  unfold WindowManager.complete_current_window at hw
  cases hc : m.current_window with
  | none => rw [hc] at hw; exact h w hw
  | some w' =>
      rw [hc] at hw
      simp only [] at hw
      split at hw
      · exact h w hw
      · rcases List.mem_append.mp hw with hmem | hmem
        · exact h w hmem
        · rw [List.mem_singleton.mp hmem]
          rename_i hne
          exact Bool.eq_false_iff.mpr hne

theorem completedNonempty_process_event (m : WindowManager) (e : SensorEvent)
    (h : completedNonempty m) : completedNonempty (m.process_event e) := by
  unfold WindowManager.process_event
  simp only []
  set t := e.timestamp
  set b := m.isNewSession t
  have h1 : completedNonempty (m.sessionCheck b) := by
    rcases sessionCheck_cases m b with hs | hs <;> rw [hs]
    · exact completedNonempty_complete m h
    · exact h
  have h2 : completedNonempty ((m.sessionCheck b).ensureWindow t b) := by
    unfold WindowManager.ensureWindow WindowManager.startNewWindow
    split
    · exact h1
    · exact h1
  have h3 : completedNonempty (((m.sessionCheck b).ensureWindow t b).rollIfExpired t b) := by
    unfold WindowManager.rollIfExpired
    cases hc : ((m.sessionCheck b).ensureWindow t b).current_window with
    | none => exact h2
    | some w =>
        simp only []
        split
        · unfold WindowManager.startNewWindow
          exact completedNonempty_complete _ h2
        · exact h2
  intro w hw
  unfold WindowManager.addToCurrent at hw
  cases hc : (((m.sessionCheck b).ensureWindow t b).rollIfExpired t b).current_window with
  | none => rw [hc] at hw; exact h3 w hw
  | some w' => rw [hc] at hw; exact h3 w hw

theorem completedNonempty_runOps (ops : List Op) (m : WindowManager)
    (h : completedNonempty m) : completedNonempty (runOps m ops) := by
  induction ops generalizing m with
  | nil => exact h
  | cons op rest ih =>
      cases op with
      | process e => exact ih _ (completedNonempty_process_event m e h)
      | flush => exact ih _ (completedNonempty_complete m h)
      | expiry now =>
          refine ih _ ?_
          unfold WindowManager.check_window_expiry
          cases hc : m.current_window with
          | none => exact h
          | some w =>
              simp only []
              split
              · exact completedNonempty_complete m h
              · exact h
      | take =>
          refine ih _ ?_
          intro w hw
          simp [WindowManager.take_completed_windows] at hw

/-- C8: every window surfaced by `take_completed_windows`, after any sequence
of `process_event`, `flush`, expiry-check and take operations, holds at least
one event — empty windows are discarded at close time. -/
theorem completed_windows_nonempty (ws gs : Nat) (ops : List Op) :
    ∀ w ∈ (runOps (WindowManager.new ws gs) ops).take_completed_windows.1,
      w.is_empty = false := by
  intro w hw
  refine completedNonempty_runOps ops _ ?_ w hw
  intro w' hw'
  simp [WindowManager.new] at hw'

/-- C8 (witness): a concrete non-empty surfaced window. -/
theorem completed_windows_nonempty_witness :
    EventWindow.is_empty
      { start := 0, end_ := 10000,
        keyboard_events := [⟨0, true, KeyboardEventType.TypingTap⟩],
        mouse_events := [], is_session_start := true } = false :=
  completed_windows_nonempty 10 300
    [Op.process (SensorEvent.keyboard ⟨0, true, KeyboardEventType.TypingTap⟩),
     Op.flush] _ (List.mem_singleton_self _)

/-- C9: flushing a manager with no open window is a no-op: the entire state
(current window, completed queue, last event time, configuration) is
returned unchanged. -/
theorem flush_no_window_noop (m : WindowManager)
    (h : m.current_window = none) : m.flush = m := by
  unfold WindowManager.flush WindowManager.complete_current_window
  rw [h]

/-- C9 (witness): flushing a concrete empty manager changes nothing. -/
theorem flush_no_window_noop_witness :
    (WindowManager.new 10 300).flush = WindowManager.new 10 300 :=
  flush_no_window_noop _ rfl

/-- C10: after `process_event` there is always an open current window and the
recorded last event time is the processed event's timestamp; processing never
leaves the manager in the `Empty` state. -/
theorem process_event_opens_window (m : WindowManager) (e : SensorEvent) :
    ((m.process_event e).current_window).isSome = true ∧
    (m.process_event e).last_event_time = some e.timestamp :=
  ⟨(process_event_shape m e).2, (process_event_shape m e).1⟩

theorem ensureWindow_completed (m : WindowManager) (t : Int) (b : Bool) :
    (m.ensureWindow t b).completed_windows = m.completed_windows := by
  unfold WindowManager.ensureWindow WindowManager.startNewWindow
  split <;> rfl

theorem addToCurrent_completed (m : WindowManager) (e : SensorEvent) :
    (m.addToCurrent e).completed_windows = m.completed_windows := by
  unfold WindowManager.addToCurrent
  cases hc : m.current_window <;> simp [hc]

theorem rollIfExpired_mem_completed (m : WindowManager) (t : Int) (b : Bool)
    (w : EventWindow) (hw : w ∈ m.completed_windows) :
    w ∈ (m.rollIfExpired t b).completed_windows := by
  unfold WindowManager.rollIfExpired
  cases hc : m.current_window with
  | none => exact hw
  | some w' =>
      simp only []
      split
      · unfold WindowManager.startNewWindow
        exact complete_mem_completed m w hw
      · exact hw

theorem sessionCheck_true_mem (m : WindowManager) (w : EventWindow)
    (hw : m.current_window = some w) (hne : w.is_empty = false) :
    w ∈ (m.sessionCheck true).completed_windows := by
  unfold WindowManager.sessionCheck WindowManager.complete_current_window
  rw [hw]
  simp [hne]

theorem sessionCheck_true_current_none (m : WindowManager) :
    (m.sessionCheck true).current_window = none := by
  unfold WindowManager.sessionCheck
  cases hc : m.current_window with
  | none => simp [hc]
  | some w => simp [hc, complete_current_none]

/-- C4: an event whose timestamp exceeds the last observed one by more than
the session gap threshold closes the open window immediately (surfacing it if
non-empty) and opens a fresh window anchored at the event with
`is_session_start = true`. -/
theorem session_gap_closes_window (m : WindowManager) (e : SensorEvent) (t0 : Int)
    (h1 : m.last_event_time = some t0)
    (h2 : e.timestamp - t0 > m.session_gap_threshold) :
    (∀ w, m.current_window = some w → w.is_empty = false →
       w ∈ (m.process_event e).completed_windows) ∧
    (∃ w', (m.process_event e).current_window = some w' ∧
       w'.is_session_start = true ∧ w'.start = e.timestamp) := by
  have hb : m.isNewSession e.timestamp = true := by
    unfold WindowManager.isNewSession
    rw [h1]
    simpa using h2
  unfold WindowManager.process_event
  simp only [hb]
  set t := e.timestamp with ht
  constructor
  · intro w hw hne
    have hmem1 : w ∈ (m.sessionCheck true).completed_windows :=
      sessionCheck_true_mem m w hw hne
    have hmem2 : w ∈ ((m.sessionCheck true).ensureWindow t true).completed_windows := by
      rw [ensureWindow_completed]; exact hmem1
    have hmem3 : w ∈ (((m.sessionCheck true).ensureWindow t true).rollIfExpired t
        true).completed_windows :=
      rollIfExpired_mem_completed _ t true w hmem2
    show w ∈ ((((m.sessionCheck true).ensureWindow t true).rollIfExpired t
        true).addToCurrent e).completed_windows
    rw [addToCurrent_completed]
    exact hmem3
  · -- The session check leaves no open window, so a fresh session-start
    -- window anchored at the event is opened (and possibly re-opened by the
    -- roll-over step for degenerate durations); adding the event keeps its
    -- start and flag.
    have h1s : ((m.sessionCheck true).ensureWindow t true).current_window =
        some { start := t, end_ := t + (m.sessionCheck true).window_duration,
               keyboard_events := [], mouse_events := [], is_session_start := true } := by
      unfold WindowManager.ensureWindow
      rw [sessionCheck_true_current_none]
      simp only [Option.isNone_none, if_true]
      exact startNewWindow_current _ t true
    set m2 := (m.sessionCheck true).ensureWindow t true with hm2
    have h2s : ∃ w', (m2.rollIfExpired t true).current_window = some w' ∧
        w'.is_session_start = true ∧ w'.start = t := by
      unfold WindowManager.rollIfExpired
      rw [h1s]
      simp only []
      split
      · exact ⟨_, startNewWindow_current _ t true, rfl, rfl⟩
      · exact ⟨_, h1s, rfl, rfl⟩
    rcases h2s with ⟨w', hw', hsess, hstart⟩
    show ∃ w'', ((m2.rollIfExpired t true).addToCurrent e).current_window = some w'' ∧
        w''.is_session_start = true ∧ w''.start = t
    unfold WindowManager.addToCurrent
    rw [hw']
    simp only []
    refine ⟨w'.add_event e, rfl, ?_, ?_⟩
    · rw [add_event_is_session_start]; exact hsess
    · rw [add_event_start]; exact hstart

/-- A concrete manager state with an open window, used by the C4 witness. -/
def gapDemoManager : WindowManager :=
  { window_duration := 10000
    session_gap_threshold := 300000
    current_window := some
      { start := 0, end_ := 10000,
        keyboard_events := [⟨0, true, KeyboardEventType.TypingTap⟩],
        mouse_events := [], is_session_start := true }
    completed_windows := []
    last_event_time := some 0 }

/-- The gap-crossing event used by the C4 witness. -/
def gapDemoEvent : SensorEvent :=
  SensorEvent.keyboard ⟨301000, true, KeyboardEventType.TypingTap⟩

/-- C4 (witness): a concrete manager with an open window and an event past
the session gap — the old window is surfaced and the new one is a session
start anchored at the event. -/
theorem session_gap_closes_window_witness :
    ({ start := 0, end_ := 10000,
       keyboard_events := [⟨0, true, KeyboardEventType.TypingTap⟩],
       mouse_events := [], is_session_start := true } : EventWindow) ∈
      (gapDemoManager.process_event gapDemoEvent).completed_windows ∧
    ((gapDemoManager.process_event gapDemoEvent).current_window.map
      EventWindow.is_session_start) = some true ∧
    ((gapDemoManager.process_event gapDemoEvent).current_window.map
      EventWindow.start) = some gapDemoEvent.timestamp := by
  obtain ⟨hclose, w', hw', hsess, hstart⟩ :=
    session_gap_closes_window gapDemoManager gapDemoEvent 0 rfl (by decide)
  refine ⟨hclose _ rfl rfl, ?_, ?_⟩
  · rw [hw']; simp [hsess]
  · rw [hw']; simp [hstart]

/-! ## Claim theorems: degenerate windows (C2) -/

theorem compute_keyboard_features_degenerate (events : List KeyboardEvent)
    (dur : ℝ) (h : events = [] ∨ dur ≤ 0) :
    compute_keyboard_features events dur = KeyboardFeatures.default := by
  unfold compute_keyboard_features
  rw [if_pos h]

theorem compute_mouse_features_degenerate (events : List MouseEvent)
    (dur : ℝ) (h : events = [] ∨ dur ≤ 0) :
    compute_mouse_features events dur = MouseFeatures.default := by
  unfold compute_mouse_features
  rw [if_pos h]

/-- On the all-zero default features, the behavioral signals are NOT zero:
`1/(1+0)` rhythm terms give 1, the `(1-burst)*0.3` term gives friction 0.3,
and the focus proxy gives 0.5. -/
theorem compute_behavioral_signals_default :
    compute_behavioral_signals KeyboardFeatures.default MouseFeatures.default =
      { interaction_rhythm := 1, friction := 3/10, motor_stability := 1,
        focus_continuity_proxy := 1/2 } := by
  unfold compute_behavioral_signals KeyboardFeatures.default MouseFeatures.default rclamp
  simp only [BehavioralSignals.mk.injEq]
  norm_num

/-- The empty ten-second window used to refute claim C2. -/
def emptyDemoWindow : EventWindow :=
  { start := 0, end_ := 10000, keyboard_events := [], mouse_events := [],
    is_session_start := false }

/-- C2 (counterexample): on an empty window the computed features are not
all-zero — the friction signal equals 0.3. -/
theorem degenerate_features_counterexample :
    (compute_features emptyDemoWindow).behavioral.friction = 3/10 ∧
    ((3 : ℝ)/10) ≠ 0 := by
  constructor
  · show (compute_behavioral_signals
        (compute_keyboard_features emptyDemoWindow.keyboard_events
          emptyDemoWindow.duration_secs)
        (compute_mouse_features emptyDemoWindow.mouse_events
          emptyDemoWindow.duration_secs)).friction = 3/10
    rw [compute_keyboard_features_degenerate emptyDemoWindow.keyboard_events
        emptyDemoWindow.duration_secs (Or.inl rfl),
      compute_mouse_features_degenerate emptyDemoWindow.mouse_events
        emptyDemoWindow.duration_secs (Or.inl rfl),
      compute_behavioral_signals_default]
  · norm_num

/-- C2 (amended): for an empty window or one of non-positive duration, the
keyboard and mouse features are the all-zero defaults, while the behavioral
signals — computed from those defaults rather than defaulted themselves —
equal `(1, 0.3, 1, 0.5)`. -/
theorem degenerate_window_features (w : EventWindow)
    (h : w.is_empty = true ∨ w.duration_secs ≤ 0) :
    (compute_features w).keyboard = KeyboardFeatures.default ∧
    (compute_features w).mouse = MouseFeatures.default ∧
    (compute_features w).behavioral =
      { interaction_rhythm := 1, friction := 3/10, motor_stability := 1,
        focus_continuity_proxy := 1/2 } := by
  have hk : w.keyboard_events = [] ∨ w.duration_secs ≤ 0 := by
    rcases h with h | h
    · left
      unfold EventWindow.is_empty at h
      rcases Bool.and_eq_true_iff.mp h with ⟨h1, _⟩
      exact List.isEmpty_iff.mp h1
    · right; exact h
  have hm : w.mouse_events = [] ∨ w.duration_secs ≤ 0 := by
    rcases h with h | h
    · left
      unfold EventWindow.is_empty at h
      rcases Bool.and_eq_true_iff.mp h with ⟨_, h2⟩
      exact List.isEmpty_iff.mp h2
    · right; exact h
  refine ⟨?_, ?_, ?_⟩
  · show compute_keyboard_features w.keyboard_events w.duration_secs = _
    exact compute_keyboard_features_degenerate _ _ hk
  · show compute_mouse_features w.mouse_events w.duration_secs = _
    exact compute_mouse_features_degenerate _ _ hm
  · show compute_behavioral_signals
        (compute_keyboard_features w.keyboard_events w.duration_secs)
        (compute_mouse_features w.mouse_events w.duration_secs) = _
    rw [compute_keyboard_features_degenerate _ _ hk,
      compute_mouse_features_degenerate _ _ hm]
    exact compute_behavioral_signals_default

/-- C2 (witness): the amended statement at the concrete empty window. -/
theorem degenerate_window_features_witness :
    (compute_features emptyDemoWindow).keyboard = KeyboardFeatures.default ∧
    (compute_features emptyDemoWindow).mouse = MouseFeatures.default ∧
    (compute_features emptyDemoWindow).behavioral =
      { interaction_rhythm := 1, friction := 3/10, motor_stability := 1,
        focus_continuity_proxy := 1/2 } :=
  degenerate_window_features emptyDemoWindow (Or.inl rfl)

/-! ## Claim theorems: idle ratio (C5) -/

/-- A window with one keyboard press and no mouse events, over ten seconds. -/
def kbOnlyDemoWindow : EventWindow :=
  { start := 0, end_ := 10000,
    keyboard_events := [⟨0, true, KeyboardEventType.TypingTap⟩],
    mouse_events := [], is_session_start := false }

/-- A zero-duration window holding a single click. -/
def zeroDurClickWindow : EventWindow :=
  { start := 0, end_ := 0, keyboard_events := [],
    mouse_events := [MouseEvent.click 0 true], is_session_start := false }

/-- C5 (counterexample): both a window with no mouse events and a
zero-duration window with one click have fewer than two move events, yet
their computed `idle_ratio` is the default 0, not 1. -/
theorem idle_ratio_counterexample :
    (compute_features kbOnlyDemoWindow).mouse.idle_ratio = 0 ∧
    (compute_features zeroDurClickWindow).mouse.idle_ratio = 0 ∧
    (0 : ℝ) ≠ 1 := by
  refine ⟨?_, ?_, by norm_num⟩
  · show (compute_mouse_features kbOnlyDemoWindow.mouse_events
        kbOnlyDemoWindow.duration_secs).idle_ratio = 0
    rw [compute_mouse_features_degenerate kbOnlyDemoWindow.mouse_events
      kbOnlyDemoWindow.duration_secs (Or.inl rfl)]
    rfl
  · show (compute_mouse_features zeroDurClickWindow.mouse_events
        zeroDurClickWindow.duration_secs).idle_ratio = 0
    rw [compute_mouse_features_degenerate zeroDurClickWindow.mouse_events
      zeroDurClickWindow.duration_secs (Or.inr (by norm_num [zeroDurClickWindow,
        EventWindow.duration_secs]))]
    rfl

/-- C5 (amended): a window with at least one mouse event, positive duration
and fewer than two move events has `idle_ratio = 1`; a window with no mouse
events at all (or non-positive duration) instead gets the default
`idle_ratio = 0`. -/
theorem idle_ratio_fully_idle (w : EventWindow) :
    (w.mouse_events ≠ [] → 0 < w.duration_secs →
      (w.mouse_events.filter fun e => e.event_type = MouseEventType.Move).length < 2 →
      (compute_features w).mouse.idle_ratio = 1) ∧
    (w.mouse_events = [] ∨ w.duration_secs ≤ 0 →
      (compute_features w).mouse.idle_ratio = 0) := by
  constructor
  · intro hne hdur hlen
    show (compute_mouse_features w.mouse_events w.duration_secs).idle_ratio = 1
    unfold compute_mouse_features
    rw [if_neg (by push_neg; exact ⟨hne, hdur⟩)]
    simp only []
    unfold estimate_idle_ratio
    rw [if_pos hlen]
  · intro h
    show (compute_mouse_features w.mouse_events w.duration_secs).idle_ratio = 0
    rw [compute_mouse_features_degenerate w.mouse_events w.duration_secs h]
    rfl

/-- A ten-second window holding a single click (one mouse event, zero move
events). -/
def oneClickDemoWindow : EventWindow :=
  { start := 0, end_ := 10000, keyboard_events := [],
    mouse_events := [MouseEvent.click 0 true], is_session_start := false }

/-- C5 (witness): the amended statement applied at the one-click window. -/
theorem idle_ratio_fully_idle_witness :
    (compute_features oneClickDemoWindow).mouse.idle_ratio = 1 :=
  (idle_ratio_fully_idle oneClickDemoWindow).1
    (by simp [oneClickDemoWindow])
    (by norm_num [oneClickDemoWindow, EventWindow.duration_secs])
    (by simp [oneClickDemoWindow, MouseEvent.click])

/-! ## Claim theorems: scroll bucketing (C6) -/

theorem scroll_magnitude_eval (now : Int) (dx dy : ℝ) :
    (MouseEvent.scroll now dx dy).scroll_magnitude =
      some (if max (min ⌊|dx| + |dy|⌋ 2147483647) (-2147483648) < 3
        then ScrollMagnitude.Small
        else if max (min ⌊|dx| + |dy|⌋ 2147483647) (-2147483648) ≤ 10
        then ScrollMagnitude.Medium
        else ScrollMagnitude.Large) := rfl

/-- C6 (counterexample): `scroll(0, 10.5)` has total absolute delta
`10.5 > 10`, which the claim assigns to the Large bucket, but the `as i32`
truncation makes the code compare `10`, yielding Medium. -/
theorem scroll_bucket_counterexample :
    (10 : ℝ) < |(0 : ℝ)| + |(21/2 : ℝ)| ∧
    (MouseEvent.scroll 0 0 (21/2)).scroll_magnitude = some ScrollMagnitude.Medium ∧
    ScrollMagnitude.Medium ≠ ScrollMagnitude.Large := by
  refine ⟨?_, ?_, by decide⟩
  · rw [abs_zero, zero_add, abs_of_nonneg (by norm_num : (0:ℝ) ≤ 21/2)]
    norm_num
  rw [scroll_magnitude_eval]
  have hfloor : ⌊|(0 : ℝ)| + |(21/2 : ℝ)|⌋ = 10 := by
    rw [abs_zero, zero_add, abs_of_nonneg (by norm_num : (0:ℝ) ≤ 21/2)]
    rw [Int.floor_eq_iff]
    norm_num
  rw [hfloor]
  norm_num

/-- C6 (amended): the bucket is determined by the integer truncation of the
total absolute delta: Small when the total is below 3, Medium when it lies in
`[3, 11)`, Large when it is at least 11 (equivalently: truncated total `< 3`,
`3..=10`, `> 10`); in particular `scroll(0,2)` is Small, `scroll(0,5)` is
Medium and `scroll(0,15)` is Large. -/
theorem scroll_bucket_thresholds (now : Int) (dx dy : ℝ) :
    (|dx| + |dy| < 3 →
      (MouseEvent.scroll now dx dy).scroll_magnitude = some ScrollMagnitude.Small) ∧
    (3 ≤ |dx| + |dy| → |dx| + |dy| < 11 →
      (MouseEvent.scroll now dx dy).scroll_magnitude = some ScrollMagnitude.Medium) ∧
    ((11 : ℝ) ≤ |dx| + |dy| →
      (MouseEvent.scroll now dx dy).scroll_magnitude = some ScrollMagnitude.Large) ∧
    (MouseEvent.scroll now 0 2).scroll_magnitude = some ScrollMagnitude.Small ∧
    (MouseEvent.scroll now 0 5).scroll_magnitude = some ScrollMagnitude.Medium ∧
    (MouseEvent.scroll now 0 15).scroll_magnitude = some ScrollMagnitude.Large := by
  have h0 : (0 : ℝ) ≤ |dx| + |dy| := add_nonneg (abs_nonneg dx) (abs_nonneg dy)
  have hf0 : 0 ≤ ⌊|dx| + |dy|⌋ := Int.floor_nonneg.mpr h0
  have hsmall : ∀ (a b : ℝ), |a| + |b| < 3 →
      (MouseEvent.scroll now a b).scroll_magnitude = some ScrollMagnitude.Small := by
    intro a b hab
    rw [scroll_magnitude_eval]
    have hlt : ⌊|a| + |b|⌋ < 3 := Int.floor_lt.mpr (by exact_mod_cast hab)
    have hge : 0 ≤ ⌊|a| + |b|⌋ :=
      Int.floor_nonneg.mpr (add_nonneg (abs_nonneg a) (abs_nonneg b))
    rw [if_pos (by omega)]
  have hmedium : ∀ (a b : ℝ), 3 ≤ |a| + |b| → |a| + |b| < 11 →
      (MouseEvent.scroll now a b).scroll_magnitude = some ScrollMagnitude.Medium := by
    intro a b hab1 hab2
    rw [scroll_magnitude_eval]
    have hge : 3 ≤ ⌊|a| + |b|⌋ := Int.le_floor.mpr (by exact_mod_cast hab1)
    have hlt : ⌊|a| + |b|⌋ < 11 := Int.floor_lt.mpr (by exact_mod_cast hab2)
    rw [if_neg (by omega), if_pos (by omega)]
  have hlarge : ∀ (a b : ℝ), (11 : ℝ) ≤ |a| + |b| →
      (MouseEvent.scroll now a b).scroll_magnitude = some ScrollMagnitude.Large := by
    intro a b hab
    rw [scroll_magnitude_eval]
    have hge : 11 ≤ ⌊|a| + |b|⌋ := Int.le_floor.mpr (by exact_mod_cast hab)
    rw [if_neg (by omega), if_neg (by omega)]
  refine ⟨hsmall dx dy, hmedium dx dy, hlarge dx dy, ?_, ?_, ?_⟩
  · exact hsmall 0 2 (by norm_num)
  · exact hmedium 0 5 (by norm_num) (by norm_num)
  · exact hlarge 0 15 (by norm_num)

/-- C6 (witness): the amended thresholds applied at `scroll(0, 15)`. -/
theorem scroll_bucket_thresholds_witness :
    (11 : ℝ) ≤ |(0 : ℝ)| + |(15 : ℝ)| ∧
    (MouseEvent.scroll 0 0 15).scroll_magnitude = some ScrollMagnitude.Large :=
  ⟨by norm_num, (scroll_bucket_thresholds 0 0 15).2.2.1 (by norm_num)⟩

/-! ## Claim theorems: snapshot serialization (C7) -/

/-- A serializer that always fails (stands for a failing
`serde_json::to_string_pretty` call). -/
def failSerializer : HsiSnapshot → Except String String :=
  fun _ => Except.error "serialization failed"

/-- A serializer that always succeeds with a fixed document. -/
def okSerializer : HsiSnapshot → Except String String :=
  fun _ => Except.ok "document"

/-- The builder instance used in the C7 theorems. -/
def demoBuilder : HsiBuilder :=
  { instance_id := "instance-0", session_id := none }

/-- C7 (counterexample): when serialization of the built snapshot fails, the
caller of `build_json` receives the plain placeholder string (an empty JSON
object) and no failure indication — the `String` return type has no error
channel, and the output is not a serialization of the snapshot. -/
theorem build_json_counterexample :
    (failSerializer (demoBuilder.build 0 emptyDemoWindow
      (compute_features emptyDemoWindow))).isOk = false ∧
    demoBuilder.build_json failSerializer 0 emptyDemoWindow
      (compute_features emptyDemoWindow) = "\x7b\x7d" :=
  ⟨rfl, rfl⟩

/-- C7 (amended): `build_json` never yields partial output — on serialization
success it returns the complete serialized document unchanged, and on failure
it silently substitutes the fixed placeholder `"\x7b\x7d"` instead of
reporting the failure to the caller. -/
theorem build_json_total (b : HsiBuilder) (ser : HsiSnapshot → Except String String)
    (computed_at : Int) (w : EventWindow) (f : WindowFeatures) :
    (∀ s, ser (b.build computed_at w f) = Except.ok s →
      b.build_json ser computed_at w f = s) ∧
    (∀ err, ser (b.build computed_at w f) = Except.error err →
      b.build_json ser computed_at w f = "\x7b\x7d") := by
  constructor
  · intro s hs
    unfold HsiBuilder.build_json
    simp only []
    rw [hs]
  · intro err herr
    unfold HsiBuilder.build_json
    simp only []
    rw [herr]

/-- C7 (witness): the amended statement at a concrete succeeding serializer. -/
theorem build_json_total_witness :
    okSerializer (demoBuilder.build 0 emptyDemoWindow
      (compute_features emptyDemoWindow)) = Except.ok "document" ∧
    demoBuilder.build_json okSerializer 0 emptyDemoWindow
      (compute_features emptyDemoWindow) = "document" :=
  ⟨rfl, (build_json_total demoBuilder okSerializer 0 emptyDemoWindow
    (compute_features emptyDemoWindow)).1 "document" rfl⟩

/-! ## Bounds machinery for claim C3 -/

/-- Membership in the closed unit interval. -/
def inUnit (x : ℝ) : Prop :=
  0 ≤ x ∧ x ≤ 1

theorem inUnit_zero : inUnit 0 :=
  ⟨le_refl 0, zero_le_one⟩

theorem inUnit_one : inUnit 1 :=
  ⟨zero_le_one, le_refl 1⟩

theorem rclamp01_inUnit (x : ℝ) : inUnit (rclamp x 0 1) := by
  unfold rclamp
  exact ⟨le_min (le_max_right x 0) zero_le_one, min_le_right _ 1⟩

theorem std_dev_nonneg (l : List ℝ) : 0 ≤ std_dev l := by
  unfold std_dev
  split
  · exact le_refl 0
  · exact Real.sqrt_nonneg _

theorem inv_one_add_inUnit (x c : ℝ) (hx : 0 ≤ x) (hc : 0 < c) :
    inUnit (1 / (1 + x / c)) := by
  have hd : (1 : ℝ) ≤ 1 + x / c := le_add_of_nonneg_right (div_nonneg hx hc.le)
  have hd0 : (0 : ℝ) < 1 + x / c := lt_of_lt_of_le one_pos hd
  exact ⟨le_of_lt (div_pos one_pos hd0), (div_le_one hd0).mpr hd⟩

theorem count_ratio_inUnit (a b : ℕ) (hab : a ≤ b) (hb : 0 < b) :
    inUnit ((a : ℝ) / (b : ℝ)) := by
  have hb' : (0 : ℝ) < (b : ℝ) := by exact_mod_cast hb
  constructor
  · exact div_nonneg (by positivity) hb'.le
  · rw [div_le_one hb']
    exact_mod_cast hab

theorem filter_ratio_inUnit {β : Type} (l : List β) (p : β → Bool)
    [Decidable (l = [])] :
    inUnit (if l = [] then (0 : ℝ)
      else ((l.filter p).length : ℝ) / (l.length : ℝ)) := by
  split
  · exact inUnit_zero
  · rename_i h
    exact count_ratio_inUnit _ _ (List.length_filter_le p l)
      (List.length_pos.mpr h)

theorem sorted_consecutive {α : Type} (f : α → Int) :
    ∀ (l : List α), ((l.map f).Sorted (· ≤ ·)) →
      ∀ p ∈ consecutivePairs l, f p.1 ≤ f p.2
  | [], _, p, hp => by simp [consecutivePairs] at hp
  | [a], _, p, hp => by simp [consecutivePairs] at hp
  | a :: b :: rest, h, p, hp => by
      have hcp : consecutivePairs (a :: b :: rest) =
          (a, b) :: consecutivePairs (b :: rest) := rfl
      rw [hcp] at hp
      rcases List.mem_cons.mp hp with hpab | hmem
      · subst hpab
        exact (List.sorted_cons.mp h).1 (f b) (by simp)
      · exact sorted_consecutive f (b :: rest) (List.sorted_cons.mp h).2 p hmem

theorem session_continuity_inUnit (I : List Int) (dur : ℝ) (hdur : 0 < dur)
    (hpos : ∀ i ∈ I, 0 ≤ i) :
    inUnit (min ((((I.filter fun i => i ≤ 500 * 2).sum : Int) : ℝ) / 1000 / dur) 1) := by
  have hsum : (0 : ℤ) ≤ (I.filter fun i => i ≤ 500 * 2).sum := by
    refine List.sum_nonneg ?_
    intro x hx
    exact hpos x (List.mem_of_mem_filter hx)
  constructor
  · refine le_min ?_ zero_le_one
    refine div_nonneg (div_nonneg ?_ (by norm_num)) hdur.le
    exact_mod_cast hsum
  · exact min_le_right _ 1

theorem estimate_idle_ratio_inUnit (moves : List MouseEvent) (dur : ℝ)
    (hdur : 0 < dur) : inUnit (estimate_idle_ratio moves dur) := by
  unfold estimate_idle_ratio
  split
  · exact inUnit_one
  · have hsum : (0 : ℤ) ≤ ((consecutivePairs moves).map fun p =>
        let gap := p.2.timestamp - p.1.timestamp
        if gap > 1000 then gap - 1000 else 0).sum := by
      refine List.sum_nonneg ?_
      intro x hx
      rcases List.mem_map.mp hx with ⟨q, _, hq⟩
      simp only [] at hq
      subst hq
      split <;> omega
    constructor
    · refine le_min ?_ zero_le_one
      refine div_nonneg (div_nonneg ?_ (by norm_num)) hdur.le
      exact_mod_cast hsum
    · exact min_le_right _ 1

theorem compute_behavioral_signals_inUnit (kf : KeyboardFeatures)
    (mf : MouseFeatures) :
    inUnit (compute_behavioral_signals kf mf).interaction_rhythm ∧
    inUnit (compute_behavioral_signals kf mf).friction ∧
    inUnit (compute_behavioral_signals kf mf).motor_stability ∧
    inUnit (compute_behavioral_signals kf mf).focus_continuity_proxy := by
  unfold compute_behavioral_signals
  simp only []
  exact ⟨rclamp01_inUnit _, rclamp01_inUnit _, rclamp01_inUnit _, rclamp01_inUnit _⟩

theorem compute_keyboard_features_bounds (events : List KeyboardEvent) (dur : ℝ)
    (hsorted : (events.map KeyboardEvent.timestamp).Sorted (· ≤ ·)) :
    inUnit (compute_keyboard_features events dur).burst_index ∧
    inUnit (compute_keyboard_features events dur).session_continuity ∧
    inUnit (compute_keyboard_features events dur).typing_cadence_stability ∧
    inUnit (compute_keyboard_features events dur).typing_gap_ratio ∧
    inUnit (compute_keyboard_features events dur).typing_interaction_intensity := by
  unfold compute_keyboard_features
  split
  · exact ⟨inUnit_zero, inUnit_zero, inUnit_zero, inUnit_zero, inUnit_zero⟩
  · rename_i h
    push_neg at h
    obtain ⟨hne, hdur⟩ := h
    have hpresses : (((events.filter fun e =>
        e.event_type = KeyboardEventType.TypingTap).filter fun e =>
        e.is_key_down).map KeyboardEvent.timestamp).Sorted (· ≤ ·) := by
      refine List.Pairwise.sublist (List.Sublist.map _ ?_) hsorted
      exact (List.filter_sublist _).trans (List.filter_sublist _)
    have hIpos : ∀ i ∈ (consecutivePairs ((events.filter fun e =>
        e.event_type = KeyboardEventType.TypingTap).filter fun e =>
        e.is_key_down)).map (fun p => p.2.timestamp - p.1.timestamp), 0 ≤ i := by
      intro i hi
      rcases List.mem_map.mp hi with ⟨q, hq, hqe⟩
      subst hqe
      have := sorted_consecutive KeyboardEvent.timestamp _ hpresses q hq
      omega
    simp only []
    refine ⟨filter_ratio_inUnit _ _, ?_, ?_, filter_ratio_inUnit _ _, rclamp01_inUnit _⟩
    · exact session_continuity_inUnit _ dur hdur hIpos
    · exact inv_one_add_inUnit _ 100 (std_dev_nonneg _) (by norm_num)

theorem compute_mouse_features_bounds (events : List MouseEvent) (dur : ℝ) :
    inUnit (compute_mouse_features events dur).idle_ratio ∧
    inUnit (compute_mouse_features events dur).micro_adjustment_ratio := by
  unfold compute_mouse_features
  split
  · exact ⟨inUnit_zero, inUnit_zero⟩
  · rename_i h
    push_neg at h
    simp only []
    exact ⟨estimate_idle_ratio_inUnit _ _ h.2, filter_ratio_inUnit _ _⟩

/-- Evaluation of the `session_continuity` field on the non-degenerate
branch: the capped ratio of the summed short-enough inter-press intervals to
the window duration. -/
theorem compute_keyboard_features_session_continuity (events : List KeyboardEvent)
    (dur : ℝ) (h : ¬(events = [] ∨ dur ≤ 0)) :
    (compute_keyboard_features events dur).session_continuity =
      min ((((((consecutivePairs ((events.filter fun e =>
          e.event_type = KeyboardEventType.TypingTap).filter fun e =>
          e.is_key_down)).map fun p => p.2.timestamp - p.1.timestamp).filter
            fun i => i ≤ 500 * 2).sum : Int) : ℝ) / 1000 / dur) 1 := by
  unfold compute_keyboard_features
  rw [if_neg h]

/-- A ten-second window whose two typing key-downs arrive out of timestamp
order (5000 ms, then 0 ms). -/
def outOfOrderDemoWindow : EventWindow :=
  { start := 0, end_ := 10000,
    keyboard_events := [⟨5000, true, KeyboardEventType.TypingTap⟩,
      ⟨0, true, KeyboardEventType.TypingTap⟩],
    mouse_events := [], is_session_start := false }

/-- C3 (counterexample): on a window with out-of-order typing presses — which
the claim covers, since channel ordering is only best-effort — the single
inter-press interval is `-5000 ms`; it passes the `i <= 1000` activity filter,
so `session_continuity = -0.5`, outside `[0, 1]`. -/
theorem feature_bounds_counterexample :
    (compute_features outOfOrderDemoWindow).keyboard.session_continuity = -(1/2) ∧
    ¬ inUnit ((compute_features outOfOrderDemoWindow).keyboard.session_continuity) := by
  have hval : (compute_features outOfOrderDemoWindow).keyboard.session_continuity
      = -(1/2) := by
    show (compute_keyboard_features outOfOrderDemoWindow.keyboard_events
        outOfOrderDemoWindow.duration_secs).session_continuity = -(1/2)
    rw [compute_keyboard_features_session_continuity _ _ (by
      push_neg
      refine ⟨by simp [outOfOrderDemoWindow], ?_⟩
      norm_num [outOfOrderDemoWindow, EventWindow.duration_secs])]
    have hsum : ((consecutivePairs ((outOfOrderDemoWindow.keyboard_events.filter
        fun e => e.event_type = KeyboardEventType.TypingTap).filter fun e =>
        e.is_key_down)).map fun p => p.2.timestamp - p.1.timestamp).filter
          (fun i => i ≤ 500 * 2) = [-5000] := by decide
    rw [hsum]
    have hd : outOfOrderDemoWindow.duration_secs = 10 := by
      norm_num [outOfOrderDemoWindow, EventWindow.duration_secs]
    rw [hd]
    rw [min_eq_left (by norm_num [List.sum_cons, List.sum_nil])]
    norm_num [List.sum_cons, List.sum_nil]
  refine ⟨hval, ?_⟩
  rw [hval]
  unfold inUnit
  push_neg
  intro hcon
  exact absurd hcon (by norm_num)

/-- C3 (amended): all four behavioral signals and all ratio/index features
lie in `[0, 1]` for any window whose keyboard events are in non-decreasing
timestamp order (in particular for empty and degenerate windows, via the
defaults); without that ordering, `session_continuity` can be negative. -/
theorem feature_outputs_bounded (w : EventWindow)
    (hsorted : (w.keyboard_events.map KeyboardEvent.timestamp).Sorted (· ≤ ·)) :
    inUnit (compute_features w).behavioral.interaction_rhythm ∧
    inUnit (compute_features w).behavioral.friction ∧
    inUnit (compute_features w).behavioral.motor_stability ∧
    inUnit (compute_features w).behavioral.focus_continuity_proxy ∧
    inUnit (compute_features w).keyboard.burst_index ∧
    inUnit (compute_features w).keyboard.session_continuity ∧
    inUnit (compute_features w).keyboard.typing_cadence_stability ∧
    inUnit (compute_features w).keyboard.typing_gap_ratio ∧
    inUnit (compute_features w).keyboard.typing_interaction_intensity ∧
    inUnit (compute_features w).mouse.idle_ratio ∧
    inUnit (compute_features w).mouse.micro_adjustment_ratio := by
  obtain ⟨hb1, hb2, hb3, hb4⟩ := compute_behavioral_signals_inUnit
    (compute_keyboard_features w.keyboard_events w.duration_secs)
    (compute_mouse_features w.mouse_events w.duration_secs)
  obtain ⟨hk1, hk2, hk3, hk4, hk5⟩ :=
    compute_keyboard_features_bounds w.keyboard_events w.duration_secs hsorted
  obtain ⟨hm1, hm2⟩ := compute_mouse_features_bounds w.mouse_events w.duration_secs
  exact ⟨hb1, hb2, hb3, hb4, hk1, hk2, hk3, hk4, hk5, hm1, hm2⟩

/-- C3 (witness): the bounds at the concrete empty window (sortedness of an
empty event list is immediate). -/
theorem feature_outputs_bounded_witness :
    inUnit (compute_features emptyDemoWindow).behavioral.friction ∧
    inUnit (compute_features emptyDemoWindow).mouse.idle_ratio :=
  ⟨(feature_outputs_bounded emptyDemoWindow (by simp [emptyDemoWindow])).2.1,
   (feature_outputs_bounded emptyDemoWindow
     (by simp [emptyDemoWindow])).2.2.2.2.2.2.2.2.2.1⟩

end Synheart
